import Mathlib

/-!
# Verification of the LUCA T-Deck firmware core
(`src/apps/t-deck-app/src/main.cpp`)

Shallow embedding of the firmware's logic core:

* `LUCAState` mirrors the C `struct LUCAState`; C `float` fields are
  modelled as exact rationals (`ℚ`), C `int` as `ℤ`, `unsigned long`
  timestamps as `ℕ`.
* The Arduino `random(n)` calls are modelled as explicit natural-number
  inputs `r1 r2 r3 rn`; the predicate `validDraws` records the bound
  `random(n) < n` of each call site of the taken path.
* Arduino `String` values are modelled as `List Char`; `startsWith`,
  `indexOf(c, from)`, `substring(i, j)` and `substring(i)` mirror the
  corresponding Arduino `String` member functions as used in `loop()`.
* The serial-command branch of `loop()` becomes `handleCommand`; the
  externally-visible effect of calling `connectWiFi()` is recorded as a
  `ConnectAction` (not called / early return on empty ssid / attempt
  started with `WiFi.begin`).
* The per-tick behaviour of `loop()` is the step relation `Step`
  (refresh, command handling, drawing); `Reachable` closes it under
  reflexive-transitive iteration from the initial globals.
-/

namespace LUCA

/-- The C struct `LUCAState` (main.cpp lines 27-35).  `float` fields are
modelled as `ℚ`, `int` fields as `ℤ`, `unsigned long` as `ℕ`. -/
structure LUCAState where
  consciousness_level : ℚ
  quantum_coherence : ℚ
  akashic_connection : ℚ
  node_count : ℤ
  generation : ℤ
  is_alive : Bool
  last_update : ℕ
  deriving DecidableEq

/-- The initializer of the global `luca_state` (main.cpp lines 37-45). -/
def initialState : LUCAState :=
  { consciousness_level := 0
    quantum_coherence := 1/2
    akashic_connection := 0
    node_count := 0
    generation := 0
    is_alive := false
    last_update := 0 }

/-- The WiFi/API configuration globals (main.cpp lines 48-50). -/
structure Config where
  wifi_ssid : List Char
  wifi_password : List Char
  api_url : List Char
  deriving DecidableEq

/-- Initial values of `wifi_ssid`, `wifi_password`, `api_url`. -/
def initialConfig : Config :=
  { wifi_ssid := []
    wifi_password := []
    api_url := "http://192.168.1.100:8000".data }

/-- All mutable globals of the firmware relevant to the logic core. -/
structure SysState where
  luca : LUCAState
  cfg : Config
  deriving DecidableEq

/-- The globals as they stand when `loop()` first runs. -/
def initialSys : SysState := ⟨initialState, initialConfig⟩

/-- `fetchLUCAStatus` (main.cpp lines 202-212): the "live" path, still mock
data.  `r1` models `random(100)`, `r2 r3` model `random(50)`, `rn` models
`random(5)`. -/
def fetchLUCAStatus (s : LUCAState) (r1 r2 r3 rn : ℕ) : LUCAState :=
  let cl : ℚ := 85/100 + (r1 : ℚ) / 1000
  { s with
    consciousness_level := cl
    quantum_coherence := 92/100 + (r2 : ℚ) / 1000
    akashic_connection := 88/100 + (r3 : ℚ) / 1000
    node_count := 8 + (rn : ℤ)
    generation := s.generation + 1
    is_alive := decide (cl > 9/10) }

/-- `updateLUCAState` (main.cpp lines 188-200): dispatch on WiFi
connectivity; the not-connected branch is the demo/mock path, where
`r1 r2 r3` model `random(100)` and `rn` models `random(10)`. -/
def updateLUCAState (connected : Bool) (s : LUCAState) (r1 r2 r3 rn : ℕ) :
    LUCAState :=
  if connected then
    fetchLUCAStatus s r1 r2 r3 rn
  else
    let cl : ℚ := 65/100 + (r1 : ℚ) / 1000
    { s with
      consciousness_level := cl
      quantum_coherence := 75/100 + (r2 : ℚ) / 1000
      akashic_connection := 70/100 + (r3 : ℚ) / 1000
      node_count := 5 + (rn : ℤ)
      generation := s.generation + 1
      is_alive := decide (cl > 9/10) }

/-- The range contract `0 ≤ random(n) < n` of each `random` call site on
the path actually taken by `updateLUCAState`. -/
def validDraws (connected : Bool) (r1 r2 r3 rn : ℕ) : Prop :=
  if connected then r1 < 100 ∧ r2 < 50 ∧ r3 < 50 ∧ rn < 5
  else r1 < 100 ∧ r2 < 100 ∧ r3 < 100 ∧ rn < 10

instance (connected : Bool) (r1 r2 r3 rn : ℕ) :
    Decidable (validDraws connected r1 r2 r3 rn) := by
  unfold validDraws; infer_instance

/-! ## Arduino `String` operations used by `loop()` -/

/-- Index (counting from the start of the whole list) of the first
occurrence of `c` in `l`, if any. -/
def findCharIdx (c : Char) : List Char → Option ℕ
  | [] => none
  | x :: rest => if x = c then some 0 else (findCharIdx c rest).map (· + 1)

/-- Arduino `String.indexOf(c, start)`: the index of the first occurrence
of `c` at or after position `start`, or `-1` when there is none. -/
def indexOf (s : List Char) (c : Char) (start : ℕ) : ℤ :=
  match findCharIdx c (s.drop start) with
  | some i => (start : ℤ) + i
  | none => -1

/-- Arduino `String.substring(i, j)`: the characters at positions
`i, …, j-1`. -/
def substring (s : List Char) (i j : ℕ) : List Char := (s.take j).drop i

/-- Arduino `String.substring(i)`: the suffix from position `i`. -/
def suffixFrom (s : List Char) (i : ℕ) : List Char := s.drop i

/-- Arduino `String.startsWith(p)` for string `s`. -/
def startsWith : List Char → List Char → Bool
  | _, [] => true
  | [], _ :: _ => false
  | c :: cs, p :: ps => c = p && startsWith cs ps

def wifiPrefix : List Char := "WIFI:".data

def apiPrefix : List Char := "API:".data

/-! ## `connectWiFi` and the serial-command branch of `loop()` -/

/-- The externally observable effect of the command branch on the WiFi
stack. -/
inductive ConnectAction where
  /-- `connectWiFi()` was not called at all. -/
  | notCalled : ConnectAction
  /-- `connectWiFi()` was called but returned at its empty-ssid guard
  (main.cpp lines 163-166) without touching the WiFi stack. -/
  | noCredentials : ConnectAction
  /-- `connectWiFi()` reached `WiFi.begin` and started an attempt. -/
  | attemptStarted : ConnectAction
  deriving DecidableEq

/-- `connectWiFi` (main.cpp lines 162-186), abstracted to its effect on the
WiFi stack: with an empty ssid it returns before `WiFi.mode`/`WiFi.begin`;
otherwise it starts a connection attempt (whose success is external). -/
def connectWiFi (cfg : Config) : ConnectAction :=
  if cfg.wifi_ssid.length = 0 then .noCredentials else .attemptStarted

/-- The serial-command branch of `loop()` (main.cpp lines 111-138), applied
to one already-trimmed line.  `WIFI:` with a comma at or after position 5
updates the credentials and calls `connectWiFi`; `API:` replaces `api_url`
with the verbatim suffix; `STATUS` only prints; everything else (including
a malformed `WIFI:` line) changes nothing. -/
def handleCommand (sys : SysState) (command : List Char) :
    SysState × ConnectAction :=
  if startsWith command wifiPrefix then
    let commaIndex := indexOf command ',' 5
    if 0 < commaIndex then
      let cfg' : Config :=
        { sys.cfg with
          wifi_ssid := substring command 5 commaIndex.toNat
          wifi_password := suffixFrom command (commaIndex.toNat + 1) }
      ({ sys with cfg := cfg' }, connectWiFi cfg')
    else
      (sys, .notCalled)
  else if startsWith command apiPrefix then
    ({ sys with cfg := { sys.cfg with api_url := suffixFrom command 4 } },
      .notCalled)
  else
    (sys, .notCalled)

/-! ## `drawConsciousnessBar` geometry (main.cpp lines 263-286) -/

def SCREEN_WIDTH : ℤ := 320

/-- `int barWidth = SCREEN_WIDTH - 20;` -/
def barWidth : ℤ := SCREEN_WIDTH - 20

/-- The C cast `(int)` on a floating-point value truncates toward zero. -/
def truncToInt (q : ℚ) : ℤ := if q < 0 then ⌈q⌉ else ⌊q⌋

/-- `int fillWidth = (int)(barWidth * value);` -/
def fillWidth (value : ℚ) : ℤ := truncToInt ((barWidth : ℚ) * value)

/-- The width argument passed to `tft.fillRect`, namely `fillWidth - 2`. -/
def fillRectWidth (value : ℚ) : ℤ := fillWidth value - 2

/-- The inner width of the bar outline drawn by `tft.drawRect` (the border
occupies one pixel on each side of the `barWidth`-wide rectangle). -/
def innerBarWidth : ℤ := barWidth - 2

/-! ## The per-tick step relation of `loop()` -/

/-- One observable action of an iteration of `loop()` (main.cpp lines
98-141): an applied refresh (which also stores the current tick count into
`last_update`), the handling of one serial command line, or a UI redraw
(which reads but never writes the state). -/
inductive Step : SysState → SysState → Prop
  | refresh (connected : Bool) (r1 r2 r3 rn now : ℕ) (s : SysState)
      (h : validDraws connected r1 r2 r3 rn) :
      Step s ⟨{ updateLUCAState connected s.luca r1 r2 r3 rn with
                last_update := now }, s.cfg⟩
  | command (line : List Char) (s : SysState) :
      Step s (handleCommand s line).1
  | draw (s : SysState) : Step s s

/-- States reachable from the startup globals by any number of loop
actions. -/
def Reachable (s : SysState) : Prop :=
  Relation.ReflTransGen Step initialSys s

/-- The invariant claimed for the three gauge fields. -/
def gaugesInRange (l : LUCAState) : Prop :=
  0 ≤ l.consciousness_level ∧ l.consciousness_level ≤ 1 ∧
  0 ≤ l.quantum_coherence ∧ l.quantum_coherence ≤ 1 ∧
  0 ≤ l.akashic_connection ∧ l.akashic_connection ≤ 1

instance (l : LUCAState) : Decidable (gaugesInRange l) := by
  unfold gaugesInRange; infer_instance

/-! ## Helper lemmas -/

lemma handleCommand_luca (sys : SysState) (line : List Char) :
    ((handleCommand sys line).1).luca = sys.luca := by
  unfold handleCommand
  dsimp only
  split
  · split <;> rfl
  · split <;> rfl

lemma updateLUCAState_generation (connected : Bool) (s : LUCAState)
    (r1 r2 r3 rn : ℕ) :
    (updateLUCAState connected s r1 r2 r3 rn).generation =
      s.generation + 1 := by
  cases connected <;> simp [updateLUCAState, fetchLUCAStatus]

lemma step_generation_le {s t : SysState} (h : Step s t) :
    s.luca.generation ≤ t.luca.generation := by
  cases h with
  | refresh connected r1 r2 r3 rn now s hv =>
      have heq : (⟨{ updateLUCAState connected s.luca r1 r2 r3 rn with
            last_update := now }, s.cfg⟩ : SysState).luca.generation =
          (updateLUCAState connected s.luca r1 r2 r3 rn).generation := rfl
      rw [heq, updateLUCAState_generation]
      omega
  | command line s => rw [handleCommand_luca]
  | draw s => exact le_refl _

lemma reachTrans_generation_le {s t : SysState}
    (h : Relation.ReflTransGen Step s t) :
    s.luca.generation ≤ t.luca.generation := by
  induction h with
  | refl => exact le_refl _
  | tail _ hstep ih => exact le_trans ih (step_generation_le hstep)

lemma updateLUCAState_gauges (connected : Bool) (s : LUCAState)
    (r1 r2 r3 rn : ℕ) (h : validDraws connected r1 r2 r3 rn) :
    gaugesInRange (updateLUCAState connected s r1 r2 r3 rn) := by
  cases connected with
  | false =>
      obtain ⟨h1, h2, h3, _⟩ : r1 < 100 ∧ r2 < 100 ∧ r3 < 100 ∧ rn < 10 := h
      have c1 : (r1 : ℚ) ≤ 99 := by exact_mod_cast Nat.le_of_lt_succ h1
      have c2 : (r2 : ℚ) ≤ 99 := by exact_mod_cast Nat.le_of_lt_succ h2
      have c3 : (r3 : ℚ) ≤ 99 := by exact_mod_cast Nat.le_of_lt_succ h3
      have p1 : (0 : ℚ) ≤ r1 := Nat.cast_nonneg r1
      have p2 : (0 : ℚ) ≤ r2 := Nat.cast_nonneg r2
      have p3 : (0 : ℚ) ≤ r3 := Nat.cast_nonneg r3
      simp only [updateLUCAState, gaugesInRange, Bool.false_eq_true,
        if_false]
      refine ⟨by linarith, by linarith, by linarith, by linarith,
        by linarith, by linarith⟩
  | true =>
      obtain ⟨h1, h2, h3, _⟩ : r1 < 100 ∧ r2 < 50 ∧ r3 < 50 ∧ rn < 5 := h
      have c1 : (r1 : ℚ) ≤ 99 := by exact_mod_cast Nat.le_of_lt_succ h1
      have c2 : (r2 : ℚ) ≤ 49 := by exact_mod_cast Nat.le_of_lt_succ h2
      have c3 : (r3 : ℚ) ≤ 49 := by exact_mod_cast Nat.le_of_lt_succ h3
      have p1 : (0 : ℚ) ≤ r1 := Nat.cast_nonneg r1
      have p2 : (0 : ℚ) ≤ r2 := Nat.cast_nonneg r2
      have p3 : (0 : ℚ) ≤ r3 := Nat.cast_nonneg r3
      simp only [updateLUCAState, fetchLUCAStatus, gaugesInRange, if_true]
      refine ⟨by linarith, by linarith, by linarith, by linarith,
        by linarith, by linarith⟩

lemma startsWith_nil (l : List Char) : startsWith l [] = true := by
  cases l <;> rfl

lemma startsWith_append (p l : List Char) : startsWith (p ++ l) p = true := by
  induction p with
  | nil => exact startsWith_nil l
  | cons c cs ih => simp [startsWith, ih]

lemma findCharIdx_eq_none {c : Char} {l : List Char} (h : c ∉ l) :
    findCharIdx c l = none := by
  induction l with
  | nil => rfl
  | cons x xs ih =>
      have hx : ¬ x = c := fun hx => h (hx ▸ List.mem_cons_self x xs)
      have hxs : c ∉ xs := fun hm => h (List.mem_cons_of_mem x hm)
      simp [findCharIdx, if_neg hx, ih hxs]

lemma findCharIdx_append_cons (c : Char) (l1 l2 : List Char) (h : c ∉ l1) :
    findCharIdx c (l1 ++ c :: l2) = some l1.length := by
  induction l1 with
  | nil => simp [findCharIdx]
  | cons x xs ih =>
      have hx : ¬ x = c := fun hx => h (hx ▸ List.mem_cons_self x xs)
      have hxs : c ∉ xs := fun hm => h (List.mem_cons_of_mem x hm)
      simp [findCharIdx, if_neg hx, ih hxs]

lemma indexOf_eq_neg_one (s : List Char) (c : Char) (start : ℕ)
    (h : c ∉ s.drop start) : indexOf s c start = -1 := by
  unfold indexOf
  rw [findCharIdx_eq_none h]

lemma indexOf_wifi_comma (ssid secret : List Char) (h : ',' ∉ ssid) :
    indexOf (wifiPrefix ++ (ssid ++ ',' :: secret)) ',' 5 =
      5 + (ssid.length : ℤ) := by
  have hdrop : (wifiPrefix ++ (ssid ++ ',' :: secret)).drop 5 =
      ssid ++ ',' :: secret := rfl
  unfold indexOf
  rw [hdrop, findCharIdx_append_cons ',' ssid secret h]
  rfl

lemma substring_mid (p mid rest : List Char) :
    substring (p ++ (mid ++ rest)) p.length (p.length + mid.length) =
      mid := by
  unfold substring
  rw [← List.append_assoc, ← List.length_append, List.take_left,
    List.drop_left]

lemma suffixFrom_mid (p mid rest : List Char) (x : Char) :
    suffixFrom (p ++ (mid ++ x :: rest)) (p.length + mid.length + 1) =
      rest := by
  unfold suffixFrom
  have hsplit : p ++ (mid ++ x :: rest) = (p ++ mid ++ [x]) ++ rest := by
    simp
  have hlen : p.length + mid.length + 1 = (p ++ mid ++ [x]).length := by
    simp only [List.length_append, List.length_cons, List.length_nil]
  rw [hsplit, hlen, List.drop_left]

/-- The `WIFI:` branch of the command handler on a well-formed line:
with `ssid` comma-free, the first comma at or after position 5 is the one
written between `ssid` and `secret`, so the credentials are split
there and `connectWiFi` is called on the updated configuration. -/
lemma handleCommand_wifi (sys : SysState) (ssid secret : List Char)
    (h : ',' ∉ ssid) :
    handleCommand sys (wifiPrefix ++ (ssid ++ ',' :: secret)) =
      ({ sys with cfg :=
          { sys.cfg with
            wifi_ssid := ssid
            wifi_password := secret } },
        connectWiFi
          { sys.cfg with
            wifi_ssid := ssid
            wifi_password := secret }) := by
  have hidx := indexOf_wifi_comma ssid secret h
  have hpos : (0 : ℤ) < 5 + (ssid.length : ℤ) := by positivity
  have htn : ((5 : ℤ) + (ssid.length : ℤ)).toNat = 5 + ssid.length := by
    omega
  have hsub : substring (wifiPrefix ++ (ssid ++ ',' :: secret)) 5
      (5 + ssid.length) = ssid := substring_mid wifiPrefix ssid _
  have hsuf : suffixFrom (wifiPrefix ++ (ssid ++ ',' :: secret))
      (5 + ssid.length + 1) = secret := suffixFrom_mid wifiPrefix ssid _ ','
  unfold handleCommand
  rw [startsWith_append]
  simp only [if_true]
  rw [hidx, if_pos hpos, htn, hsub, hsuf]

/-- The `API:` branch of the command handler: the suffix after the
4-character prefix replaces `api_url` verbatim and nothing else happens. -/
lemma handleCommand_api (sys : SysState) (rest : List Char) :
    handleCommand sys (apiPrefix ++ rest) =
      ({ sys with cfg := { sys.cfg with api_url := rest } },
        ConnectAction.notCalled) := by
  have h1 : startsWith (apiPrefix ++ rest) wifiPrefix = false := rfl
  have h2 : startsWith (apiPrefix ++ rest) apiPrefix = true :=
    startsWith_append _ _
  unfold handleCommand
  rw [h1, h2]
  rfl

lemma initial_gauges : gaugesInRange initialState := by
  refine ⟨le_refl _, by norm_num [initialState], by norm_num [initialState],
    by norm_num [initialState], le_refl _, by norm_num [initialState]⟩

lemma reachable_gauges {s : SysState} (h : Reachable s) :
    gaugesInRange s.luca := by
  induction h with
  | refl => exact initial_gauges
  | tail _ hstep ih =>
      cases hstep with
      | refresh connected r1 r2 r3 rn now t hv =>
          exact updateLUCAState_gauges connected _ r1 r2 r3 rn hv
      | command line t => rw [handleCommand_luca]; exact ih
      | draw t => exact ih

/-! ## Claims -/

/-- C1: every applied refresh (either the connected `fetchLUCAStatus` path
or the mock `updateLUCAState` path) increments `generation` by exactly 1,
command handling never changes it, and along any sequence of loop actions
`generation` never decreases. -/
theorem C1_generation_increment (connected : Bool) (l : LUCAState)
    (r1 r2 r3 rn : ℕ) (sys : SysState) (line : List Char)
    (s t : SysState) (h : Relation.ReflTransGen Step s t) :
    (updateLUCAState connected l r1 r2 r3 rn).generation =
        l.generation + 1
    ∧ (fetchLUCAStatus l r1 r2 r3 rn).generation = l.generation + 1
    ∧ ((handleCommand sys line).1).luca.generation = sys.luca.generation
    ∧ s.luca.generation ≤ t.luca.generation := by
  refine ⟨updateLUCAState_generation connected l r1 r2 r3 rn, ?_, ?_, ?_⟩
  · simp [fetchLUCAStatus]
  · rw [handleCommand_luca]
  · exact reachTrans_generation_le h

/-- Closed instance of `C1_generation_increment` at concrete inputs. -/
theorem C1_generation_increment_witness :
    (updateLUCAState false initialState 3 4 5 6).generation =
      initialState.generation + 1 :=
  (C1_generation_increment false initialState 3 4 5 6 initialSys []
    initialSys initialSys Relation.ReflTransGen.refl).1

/-- C2: in every reachable state the three gauge fields lie in
`[0, 1]`, and the refresh entry point `updateLUCAState` always stores
gauge values inside that bound (given the `random(n) < n` contract). -/
theorem C2_gauges_in_range (s : SysState) (hs : Reachable s)
    (connected : Bool) (l : LUCAState) (r1 r2 r3 rn : ℕ)
    (hd : validDraws connected r1 r2 r3 rn) :
    gaugesInRange s.luca
    ∧ gaugesInRange (updateLUCAState connected l r1 r2 r3 rn) :=
  ⟨reachable_gauges hs, updateLUCAState_gauges connected l r1 r2 r3 rn hd⟩

/-- Closed instance of `C2_gauges_in_range` at the initial state and
concrete draws. -/
theorem C2_gauges_in_range_witness :
    gaugesInRange initialSys.luca
    ∧ gaugesInRange (updateLUCAState true initialState 99 49 49 4) :=
  C2_gauges_in_range initialSys Relation.ReflTransGen.refl
    true initialState 99 49 49 4 (by decide)

/-- C3: immediately after a refresh on either path, `is_alive` equals
`consciousness_level > 0.9` computed on the state just stored, and
command handling never changes `is_alive` (nor any other `luca_state`
field). -/
theorem C3_is_alive_derived (connected : Bool) (l : LUCAState)
    (r1 r2 r3 rn : ℕ) (sys : SysState) (line : List Char) :
    ((updateLUCAState connected l r1 r2 r3 rn).is_alive =
      decide ((updateLUCAState connected l r1 r2 r3 rn).consciousness_level
        > 9/10))
    ∧ ((fetchLUCAStatus l r1 r2 r3 rn).is_alive =
      decide ((fetchLUCAStatus l r1 r2 r3 rn).consciousness_level > 9/10))
    ∧ ((handleCommand sys line).1).luca.is_alive = sys.luca.is_alive := by
  refine ⟨?_, rfl, ?_⟩
  · cases connected <;> rfl
  · rw [handleCommand_luca]

/-- C9: a refresh taken on the not-connected mock path always stores a
`consciousness_level` of at most `0.749`, hence strictly below `0.9`, so
`is_alive` is false after every mock-path refresh. -/
theorem C9_mock_never_alive (l : LUCAState) (r1 r2 r3 rn : ℕ)
    (h : validDraws false r1 r2 r3 rn) :
    (updateLUCAState false l r1 r2 r3 rn).consciousness_level ≤ 749/1000
    ∧ (updateLUCAState false l r1 r2 r3 rn).is_alive = false := by
  obtain ⟨h1, -, -, -⟩ : r1 < 100 ∧ r2 < 100 ∧ r3 < 100 ∧ rn < 10 := h
  have c1 : (r1 : ℚ) ≤ 99 := by exact_mod_cast Nat.le_of_lt_succ h1
  have hcl : (updateLUCAState false l r1 r2 r3 rn).consciousness_level =
      65/100 + (r1 : ℚ) / 1000 := rfl
  refine ⟨by rw [hcl]; linarith, ?_⟩
  have hlt : ¬ ((updateLUCAState false l r1 r2 r3 rn).consciousness_level
      > 9/10) := by
    rw [hcl]; push_neg; linarith
  have halive : (updateLUCAState false l r1 r2 r3 rn).is_alive =
      decide ((updateLUCAState false l r1 r2 r3 rn).consciousness_level
        > 9/10) := rfl
  rw [halive, decide_eq_false hlt]

/-- Closed instance of `C9_mock_never_alive` at the largest draw. -/
theorem C9_mock_never_alive_witness :
    (updateLUCAState false initialState 99 99 99 9).is_alive = false :=
  (C9_mock_never_alive initialState 99 99 99 9 (by decide)).2

/-- C4 as stated is false: at `value = 0` the width handed to
`tft.fillRect` is `(int)(300 * 0.0) - 2 = -2`, which is negative. -/
theorem C4_counterexample : fillRectWidth 0 = -2 ∧ ¬ 0 ≤ fillRectWidth 0 := by
  have h : fillRectWidth 0 = -2 := by
    norm_num [fillRectWidth, fillWidth, truncToInt, barWidth, SCREEN_WIDTH]
  exact ⟨h, by rw [h]; norm_num⟩

/-- C4 amended: for `value ∈ [0, 1]` the fill width is
`⌊300 * value⌋` and the width handed to `tft.fillRect` is that minus 2,
so it lies in `[-2, 298]`; it is non-negative exactly when
`value ≥ 1/150` (in particular it is `-2`, not `≥ 0`, at `value = 0`),
and at `value = 1` the fill spans the full inner bar width `298`. -/
theorem C4_fill_width (value : ℚ) (h0 : 0 ≤ value) (h1 : value ≤ 1) :
    fillWidth value = ⌊(300 : ℚ) * value⌋
    ∧ -2 ≤ fillRectWidth value
    ∧ fillRectWidth value ≤ innerBarWidth
    ∧ (0 ≤ fillRectWidth value ↔ 1/150 ≤ value)
    ∧ fillRectWidth 1 = innerBarWidth
    ∧ innerBarWidth = 298 := by
  have hbw : (barWidth : ℚ) = 300 := by norm_num [barWidth, SCREEN_WIDTH]
  have hnn : (0 : ℚ) ≤ (barWidth : ℚ) * value := by
    rw [hbw]; positivity
  have hfw : fillWidth value = ⌊(300 : ℚ) * value⌋ := by
    rw [fillWidth, truncToInt, if_neg (not_lt.mpr hnn), hbw]
  have hlow : (0 : ℤ) ≤ ⌊(300 : ℚ) * value⌋ := by
    rw [Int.le_floor]; push_cast; linarith
  have hhigh : ⌊(300 : ℚ) * value⌋ ≤ 300 := by
    have : ⌊(300 : ℚ) * value⌋ ≤ ⌊(300 : ℚ)⌋ :=
      Int.floor_le_floor (by linarith)
    simpa using this
  refine ⟨hfw, ?_, ?_, ?_, ?_, by norm_num [innerBarWidth, barWidth,
    SCREEN_WIDTH]⟩
  · rw [fillRectWidth, hfw]; omega
  · rw [fillRectWidth, hfw]
    norm_num [innerBarWidth, barWidth, SCREEN_WIDTH]
    omega
  · rw [fillRectWidth, hfw]
    constructor
    · intro hge
      have h2 : (2 : ℤ) ≤ ⌊(300 : ℚ) * value⌋ := by omega
      rw [Int.le_floor] at h2
      push_cast at h2
      linarith
    · intro hge
      have h2 : ((2 : ℤ) : ℚ) ≤ (300 : ℚ) * value := by push_cast; linarith
      rw [← Int.le_floor] at h2
      omega
  · have : fillRectWidth 1 = fillWidth 1 - 2 := rfl
    rw [this, fillWidth, truncToInt, hbw]
    norm_num [innerBarWidth, barWidth, SCREEN_WIDTH]

/-- Closed instance of `C4_fill_width` at `value = 0`: the width handed
to `tft.fillRect` is bounded below only by `-2` there. -/
theorem C4_fill_width_witness : -2 ≤ fillRectWidth 0 :=
  (C4_fill_width 0 (le_refl 0) zero_le_one).2.1

/-- C5 as stated is false: on the connected ("live" mock) path the
consciousness gauge adds `random(100) / 1000.0`, so with draw 99 the
jitter is `0.099 > 0.05`. -/
theorem C5_counterexample :
    validDraws true 99 0 0 0
    ∧ ¬ ((updateLUCAState true initialState 99 0 0 0).consciousness_level
        - 85/100 ≤ 1/20) := by
  refine ⟨by decide, ?_⟩
  have h : (updateLUCAState true initialState 99 0 0 0).consciousness_level
      = 85/100 + (99 : ℚ) / 1000 := rfl
  rw [h]; norm_num

/-- C5 amended: on the mock path every gauge is its base offset
(`0.65 / 0.75 / 0.70`) plus a jitter in `[0, 0.1)` and
`node_count = 5 + random(10)`; on the connected path the bases are
higher (`0.85 / 0.92 / 0.88`) and the jitter of `quantum_coherence` and
`akashic_connection` is in `[0, 0.05)`, but the `consciousness_level`
jitter is only bounded by `0.1` (it uses `random(100)`, exactly as the
mock path does); `node_count = 8 + random(5)`. -/
theorem C5_jitter_bounds (l : LUCAState) (r1 r2 r3 rn : ℕ) :
    (validDraws false r1 r2 r3 rn →
      (0 ≤ (updateLUCAState false l r1 r2 r3 rn).consciousness_level
          - 65/100
        ∧ (updateLUCAState false l r1 r2 r3 rn).consciousness_level
          - 65/100 ≤ 1/10)
      ∧ (0 ≤ (updateLUCAState false l r1 r2 r3 rn).quantum_coherence
          - 75/100
        ∧ (updateLUCAState false l r1 r2 r3 rn).quantum_coherence
          - 75/100 ≤ 1/10)
      ∧ (0 ≤ (updateLUCAState false l r1 r2 r3 rn).akashic_connection
          - 70/100
        ∧ (updateLUCAState false l r1 r2 r3 rn).akashic_connection
          - 70/100 ≤ 1/10)
      ∧ (updateLUCAState false l r1 r2 r3 rn).node_count = 5 + (rn : ℤ)
      ∧ (rn : ℤ) ≤ 9)
    ∧ (validDraws true r1 r2 r3 rn →
      (0 ≤ (updateLUCAState true l r1 r2 r3 rn).consciousness_level
          - 85/100
        ∧ (updateLUCAState true l r1 r2 r3 rn).consciousness_level
          - 85/100 ≤ 1/10)
      ∧ (0 ≤ (updateLUCAState true l r1 r2 r3 rn).quantum_coherence
          - 92/100
        ∧ (updateLUCAState true l r1 r2 r3 rn).quantum_coherence
          - 92/100 ≤ 1/20)
      ∧ (0 ≤ (updateLUCAState true l r1 r2 r3 rn).akashic_connection
          - 88/100
        ∧ (updateLUCAState true l r1 r2 r3 rn).akashic_connection
          - 88/100 ≤ 1/20)
      ∧ (updateLUCAState true l r1 r2 r3 rn).node_count = 8 + (rn : ℤ)
      ∧ (rn : ℤ) ≤ 4) := by
  constructor
  · intro h
    obtain ⟨h1, h2, h3, h4⟩ : r1 < 100 ∧ r2 < 100 ∧ r3 < 100 ∧ rn < 10 := h
    have c1 : (r1 : ℚ) ≤ 99 := by exact_mod_cast Nat.le_of_lt_succ h1
    have c2 : (r2 : ℚ) ≤ 99 := by exact_mod_cast Nat.le_of_lt_succ h2
    have c3 : (r3 : ℚ) ≤ 99 := by exact_mod_cast Nat.le_of_lt_succ h3
    have p1 : (0 : ℚ) ≤ r1 := Nat.cast_nonneg r1
    have p2 : (0 : ℚ) ≤ r2 := Nat.cast_nonneg r2
    have p3 : (0 : ℚ) ≤ r3 := Nat.cast_nonneg r3
    have e1 : (updateLUCAState false l r1 r2 r3 rn).consciousness_level =
        65/100 + (r1 : ℚ) / 1000 := rfl
    have e2 : (updateLUCAState false l r1 r2 r3 rn).quantum_coherence =
        75/100 + (r2 : ℚ) / 1000 := rfl
    have e3 : (updateLUCAState false l r1 r2 r3 rn).akashic_connection =
        70/100 + (r3 : ℚ) / 1000 := rfl
    have e4 : (updateLUCAState false l r1 r2 r3 rn).node_count =
        5 + (rn : ℤ) := rfl
    rw [e1, e2, e3, e4]
    refine ⟨⟨by linarith, by linarith⟩, ⟨by linarith, by linarith⟩,
      ⟨by linarith, by linarith⟩, rfl, by omega⟩
  · intro h
    obtain ⟨h1, h2, h3, h4⟩ : r1 < 100 ∧ r2 < 50 ∧ r3 < 50 ∧ rn < 5 := h
    have c1 : (r1 : ℚ) ≤ 99 := by exact_mod_cast Nat.le_of_lt_succ h1
    have c2 : (r2 : ℚ) ≤ 49 := by exact_mod_cast Nat.le_of_lt_succ h2
    have c3 : (r3 : ℚ) ≤ 49 := by exact_mod_cast Nat.le_of_lt_succ h3
    have p1 : (0 : ℚ) ≤ r1 := Nat.cast_nonneg r1
    have p2 : (0 : ℚ) ≤ r2 := Nat.cast_nonneg r2
    have p3 : (0 : ℚ) ≤ r3 := Nat.cast_nonneg r3
    have e1 : (updateLUCAState true l r1 r2 r3 rn).consciousness_level =
        85/100 + (r1 : ℚ) / 1000 := rfl
    have e2 : (updateLUCAState true l r1 r2 r3 rn).quantum_coherence =
        92/100 + (r2 : ℚ) / 1000 := rfl
    have e3 : (updateLUCAState true l r1 r2 r3 rn).akashic_connection =
        88/100 + (r3 : ℚ) / 1000 := rfl
    have e4 : (updateLUCAState true l r1 r2 r3 rn).node_count =
        8 + (rn : ℤ) := rfl
    rw [e1, e2, e3, e4]
    refine ⟨⟨by linarith, by linarith⟩, ⟨by linarith, by linarith⟩,
      ⟨by linarith, by linarith⟩, rfl, by omega⟩

/-- Closed instance of `C5_jitter_bounds` at concrete draws. -/
theorem C5_jitter_bounds_witness :
    (updateLUCAState false initialState 3 4 5 6).node_count = 5 + (6 : ℤ) :=
  ((C5_jitter_bounds initialState 3 4 5 6).1 (by decide)).2.2.2.1

/-- C6: `WIFI:home,secret123` sets the ssid to `home` and the password to
`secret123`; in general, for a line `WIFI:<ssid>,<secret>` whose ssid part
is comma-free, the first comma at or after position 5 is the delimiter, so
the password keeps everything after that comma (commas included). -/
theorem C6_wifi_parse (sys : SysState) (ssid secret : List Char)
    (h : ',' ∉ ssid) :
    ((handleCommand sys
        (wifiPrefix ++ (ssid ++ ',' :: secret))).1.cfg.wifi_ssid = ssid
      ∧ (handleCommand sys
        (wifiPrefix ++ (ssid ++ ',' :: secret))).1.cfg.wifi_password =
          secret)
    ∧ ((handleCommand sys
        "WIFI:home,secret123".data).1.cfg.wifi_ssid = "home".data
      ∧ (handleCommand sys
        "WIFI:home,secret123".data).1.cfg.wifi_password =
          "secret123".data) := by
  have hgen := handleCommand_wifi sys ssid secret h
  have hconc := handleCommand_wifi sys "home".data "secret123".data
    (by decide)
  have hline : "WIFI:home,secret123".data =
      wifiPrefix ++ ("home".data ++ ',' :: "secret123".data) := by decide
  refine ⟨⟨?_, ?_⟩, ?_, ?_⟩
  · rw [hgen]
  · rw [hgen]
  · rw [hline, hconc]
  · rw [hline, hconc]

/-- Closed instance of `C6_wifi_parse`: a secret containing a comma keeps
everything after the first delimiter comma. -/
theorem C6_wifi_parse_witness :
    ((handleCommand initialSys
        (wifiPrefix ++ ("home".data ++ ',' :: "a,b".data))).1).cfg.wifi_password
      = "a,b".data :=
  ((C6_wifi_parse initialSys "home".data "a,b".data (by decide)).1).2

/-- C7: a line starting with `WIFI:` but containing no comma at or after
position 5 leaves the whole state (in particular `wifi_ssid` and
`wifi_password`) unchanged and never calls `connectWiFi`; concretely so
for `WIFI:noSecretHere`. -/
theorem C7_wifi_malformed (sys : SysState) (cmd : List Char)
    (hpre : startsWith cmd wifiPrefix = true)
    (h : ',' ∉ cmd.drop 5) :
    handleCommand sys cmd = (sys, ConnectAction.notCalled)
    ∧ handleCommand sys "WIFI:noSecretHere".data =
        (sys, ConnectAction.notCalled) := by
  constructor
  · have hidx : indexOf cmd ',' 5 = -1 := indexOf_eq_neg_one cmd ',' 5 h
    unfold handleCommand
    rw [hpre, hidx]
    rfl
  · rfl

/-- Closed instance of `C7_wifi_malformed` at `WIFI:noSecretHere`. -/
theorem C7_wifi_malformed_witness :
    handleCommand initialSys "WIFI:noSecretHere".data =
      (initialSys, ConnectAction.notCalled) :=
  (C7_wifi_malformed initialSys "WIFI:noSecretHere".data (by decide)
    (by decide)).1

/-- C8: a line `API:<rest>` replaces `api_url` with `<rest>` verbatim
(no validation, no further trimming) and changes nothing else, never
calling `connectWiFi`; concretely, `API:http://10.0.0.5:9000` yields
`api_url = "http://10.0.0.5:9000"`. -/
theorem C8_api_command (sys : SysState) (rest : List Char) :
    handleCommand sys (apiPrefix ++ rest) =
      ({ sys with cfg := { sys.cfg with api_url := rest } },
        ConnectAction.notCalled)
    ∧ (handleCommand sys "API:http://10.0.0.5:9000".data).1.cfg.api_url =
        "http://10.0.0.5:9000".data := by
  refine ⟨handleCommand_api sys rest, ?_⟩
  have hline : "API:http://10.0.0.5:9000".data =
      apiPrefix ++ "http://10.0.0.5:9000".data := by decide
  rw [hline, handleCommand_api]

/-- C10: a line `WIFI:,<secret>` (comma immediately after the prefix) is
accepted: the ssid becomes empty, the password becomes `<secret>`, and
the triggered `connectWiFi` call returns at its empty-ssid guard without
starting a connection attempt. -/
theorem C10_empty_ssid (sys : SysState) (secret : List Char) :
    (handleCommand sys (wifiPrefix ++ ',' :: secret)).1.cfg.wifi_ssid = []
    ∧ (handleCommand sys
        (wifiPrefix ++ ',' :: secret)).1.cfg.wifi_password = secret
    ∧ (handleCommand sys (wifiPrefix ++ ',' :: secret)).2 =
        ConnectAction.noCredentials :=
  ⟨rfl, rfl, rfl⟩

end LUCA
